import Mathlib

/-!
Verification of the MindAR → WebXR hand-off core of the WebXRHit repository:
the transition state machine, the pose-stabilization buffer/averaging code
(`beginPoseStabilization`, `cancelPoseStabilization`, `bufferPose`,
`finalizeStabilization` in `src/main.js` and its later iteration), the
WebXR session-start re-entrancy guard (`startWebXRSession`), and the
world-origin locking transform (`lockWorldOrigin`): distance clamp,
gravity/yaw correction, and the degenerate-forward guard.

Machine parts (state machine, session guard) are embedded as computable
step functions over explicit state records; geometry is embedded over ℝ,
mirroring the three.js `Vector3`/`Quaternion` operations the code calls
(`applyQuaternion`, `setLength`, `normalize`, `slerp`, `multiply`).
-/

namespace WebXRHit

/-! ## Transition state machine (src/main.js, src/unnamed/part_001)

The `AppState` enumeration and the event handlers `onTargetFound`,
`onTargetLost`, the animation-loop `bufferPose` call, and the timer-driven
`finalizeStabilization`.  The sample type is left abstract (`α`); samples
are only stored, never inspected, by this part of the code.  The field
`finalized` is ghost instrumentation: it logs every buffer that was handed
to the averaging computation, so that "no sample of an aborted attempt
appears in any later stabilized average" can be stated. -/

/-- The `AppState` enumeration of `src/main.js` (INIT, MINDAR_READY,
MINDAR_TRACKING, POSE_STABILIZING, WEBXR_STARTING, WORLD_LOCKING, RUNNING). -/
inductive Phase where
  | init
  | mindarReady
  | mindarTracking
  | poseStabilizing
  | webxrStarting
  | worldLocking
  | running
deriving DecidableEq, Repr

/-- The module-level mutable state relevant to stabilization in
`src/main.js`: `currentState`, `poseBuffer`, the interval timer
(`poseStabilizeTimer`, modelled as the boolean "an interval is armed"),
`stabilizedPose` (modelled as the buffer it was averaged from), the error
log, and the ghost log of all buffers ever handed to averaging. -/
structure AppState (α : Type) where
  phase : Phase
  buffer : List α
  timerActive : Bool
  stabilized : Option (List α)
  errors : List String
  finalized : List (List α)
deriving DecidableEq, Repr

/-- External events delivered to the handlers of `src/main.js`:
`onTargetFound`, `onTargetLost`, one animation-loop frame delivering a
camera-relative pose sample, and the 1.5 s stabilization interval
reaching 100 %. -/
inductive AppEvent (α : Type) where
  | targetFound
  | targetLost
  | frame (sample : α)
  | timerComplete
deriving DecidableEq, Repr

/-- `beginPoseStabilization` (src/main.js line 207): sets
`currentState = POSE_STABILIZING`, resets `poseBuffer = []` and arms the
50 ms interval timer. -/
def beginPoseStabilization {α : Type} (s : AppState α) : AppState α :=
  { s with phase := Phase.poseStabilizing, buffer := [], timerActive := true }

/-- `cancelPoseStabilization` (src/main.js line 230): `clearInterval` plus
UI resets.  Note that the source does NOT clear `poseBuffer` here and does
NOT touch `currentState`. -/
def cancelPoseStabilization {α : Type} (s : AppState α) : AppState α :=
  { s with timerActive := false }

/-- `finalizeStabilization` (src/main.js line 244): on an empty buffer it
reports `No poses buffered!` and calls `cancelPoseStabilization` (leaving
`currentState` untouched); otherwise it computes the stabilized pose from
the buffer and `transitionToWebXR` sets `currentState = WEBXR_STARTING`. -/
def finalizeStabilization {α : Type} (s : AppState α) : AppState α :=
  if s.buffer.length = 0 then
    { cancelPoseStabilization s with errors := s.errors ++ [("No poses buffered!")] }
  else
    { s with stabilized := some s.buffer,
             finalized := s.finalized ++ [s.buffer],
             phase := Phase.webxrStarting }

/-- One event step of the handlers in `src/main.js`:
`onTargetFound` fires only from MINDAR_READY and runs
`beginPoseStabilization` (after the transient MINDAR_TRACKING write);
`onTargetLost` fires from MINDAR_TRACKING or POSE_STABILIZING, runs
`cancelPoseStabilization` and sets MINDAR_READY; the animation loop calls
`bufferPose` only while POSE_STABILIZING; the interval completing clears
itself (`clearInterval`) and runs `finalizeStabilization` — it can only
fire while the timer is armed. -/
def step {α : Type} (s : AppState α) : AppEvent α → AppState α
  | AppEvent.targetFound =>
      if s.phase = Phase.mindarReady then
        beginPoseStabilization { s with phase := Phase.mindarTracking }
      else s
  | AppEvent.targetLost =>
      if s.phase = Phase.mindarTracking ∨ s.phase = Phase.poseStabilizing then
        { cancelPoseStabilization s with phase := Phase.mindarReady }
      else s
  | AppEvent.frame x =>
      if s.phase = Phase.poseStabilizing then { s with buffer := s.buffer ++ [x] } else s
  | AppEvent.timerComplete =>
      if s.timerActive = true then finalizeStabilization { s with timerActive := false } else s

/-- Running a sequence of events through `step`. -/
def run {α : Type} (s : AppState α) (es : List (AppEvent α)) : AppState α :=
  es.foldl step s

/-- The samples pushed by the frame events of an event list. -/
def frameSamples {α : Type} (es : List (AppEvent α)) : List α :=
  es.filterMap fun e =>
    match e with
    | AppEvent.frame x => some x
    | _ => none

/-- Invariant used for the stale-sample safety argument: while the
stabilization timer is armed the tracked sample is not in the buffer, and
no buffer ever handed to averaging contained it. -/
def NoStale {α : Type} (p : α) (s : AppState α) : Prop :=
  (s.timerActive = true → p ∉ s.buffer) ∧ ∀ l ∈ s.finalized, p ∉ l

/-- Concrete POSE_STABILIZING state with one buffered sample, used to
exhibit that `onTargetLost` does not clear the buffer. -/
def c1State : AppState ℤ :=
  { phase := Phase.poseStabilizing, buffer := [0], timerActive := true,
    stabilized := none, errors := [], finalized := [] }

/-- Concrete witness state for the amended abort property. -/
def c1WitnessState : AppState ℤ :=
  { phase := Phase.poseStabilizing, buffer := [5], timerActive := true,
    stabilized := none, errors := [], finalized := [] }

/-- Concrete witness event trace: a fresh attempt after the abort. -/
def c1WitnessEvents : List (AppEvent ℤ) :=
  [AppEvent.targetFound, AppEvent.frame 7, AppEvent.timerComplete]

/-- Concrete POSE_STABILIZING state whose stabilization window elapsed
with zero buffered samples. -/
def c3State : AppState ℤ :=
  { phase := Phase.poseStabilizing, buffer := [], timerActive := true,
    stabilized := none, errors := [], finalized := [] }

/-! ## WebXR session-start re-entrancy guard (src/unnamed/part_001, `startWebXRSession`)

`startWebXRSession` returns immediately when `webxrSessionStarting` is
already set; otherwise it sets the flag and (when `navigator.xr` exists)
issues one `requestSession` negotiation.  The promise resolving
successfully runs `setupWebXRScene` (the flag stays set); the promise
rejecting clears the flag and re-shows the user-gesture overlay.
`pending` counts the session negotiations currently in flight. -/

/-- State of the session-start guard: the `webxrSessionStarting` flag and
the number of in-flight `requestSession` negotiations. -/
structure XrStart where
  starting : Bool
  pending : Nat
deriving DecidableEq, Repr

/-- Events at the session-negotiation boundary: a user-gesture driven call
of `startWebXRSession` (with `navigator.xr` present or not), and the
in-flight request fulfilling or rejecting. -/
inductive XrEvent where
  | req (xrOk : Bool)
  | resolveOk
  | resolveFail
deriving DecidableEq, Repr

/-- One step of `startWebXRSession` and its promise continuations
(src/unnamed/part_001 lines 334–354). -/
def xrStep (s : XrStart) : XrEvent → XrStart
  | XrEvent.req xrOk =>
      if s.starting then s
      else if xrOk then { starting := true, pending := s.pending + 1 }
      else { starting := false, pending := s.pending }
  | XrEvent.resolveOk => { s with pending := s.pending - 1 }
  | XrEvent.resolveFail => { starting := false, pending := s.pending - 1 }

/-- Initial guard state: flag clear, nothing in flight. -/
def xrInit : XrStart := { starting := false, pending := 0 }

/-- Inductive invariant of the guard: at most one negotiation in flight,
and an in-flight negotiation implies the flag is set. -/
def XrInv (s : XrStart) : Prop :=
  s.pending ≤ 1 ∧ (s.pending = 1 → s.starting = true)

/-! ## Geometry: three.js vector/quaternion operations

Embeddings of exactly the three.js operations the hand-off code calls,
over ℝ.  `applyQuaternion` is the three.js `Vector3.applyQuaternion`
(Rodrigues form `v + 2w (q⃗ × v) + 2 q⃗ × (q⃗ × v)`), `setLength` is
`normalize().multiplyScalar(l)` with the `length() || 1` guard, `slerp`
is `Quaternion.slerp` including the sign flip on negative dot, the
`cosHalfTheta >= 1` early return, and the `Number.EPSILON` lerp branch. -/

/-- A three.js `Vector3`. -/
structure Vec3 where
  x : ℝ
  y : ℝ
  z : ℝ

/-- A three.js `Quaternion` (fields in x, y, z, w order). -/
structure Quat where
  x : ℝ
  y : ℝ
  z : ℝ
  w : ℝ

noncomputable section

/-- Vector addition (`Vector3.add`). -/
def vadd (a b : Vec3) : Vec3 := ⟨a.x + b.x, a.y + b.y, a.z + b.z⟩

/-- Vector subtraction (`Vector3.sub`). -/
def vsub (a b : Vec3) : Vec3 := ⟨a.x - b.x, a.y - b.y, a.z - b.z⟩

/-- Scalar multiple (`Vector3.multiplyScalar`). -/
def vsmul (t : ℝ) (v : Vec3) : Vec3 := ⟨t * v.x, t * v.y, t * v.z⟩

/-- The zero vector (`new THREE.Vector3()`). -/
def vzero : Vec3 := ⟨0, 0, 0⟩

/-- Squared length (`Vector3.lengthSq`). -/
def lensq (v : Vec3) : ℝ := v.x * v.x + v.y * v.y + v.z * v.z

/-- Length (`Vector3.length`). -/
def vlength (v : Vec3) : ℝ := Real.sqrt (lensq v)

/-- Normalization (`Vector3.normalize`, `divideScalar(this.length() || 1)`). -/
def vnormalize (v : Vec3) : Vec3 :=
  vsmul (1 / (if vlength v = 0 then 1 else vlength v)) v

/-- The three.js `Vector3.setLength`: `normalize().multiplyScalar(l)`. -/
def setLength (l : ℝ) (v : Vec3) : Vec3 := vsmul l (vnormalize v)

/-- Quaternion dot product (`Quaternion.dot`). -/
def qdot (a b : Quat) : ℝ := a.x * b.x + a.y * b.y + a.z * b.z + a.w * b.w

/-- Squared quaternion norm (`Quaternion.lengthSq`). -/
def qnormSq (q : Quat) : ℝ := q.x * q.x + q.y * q.y + q.z * q.z + q.w * q.w

/-- Quaternion negation (componentwise sign flip, as in the slerp branch). -/
def qneg (q : Quat) : Quat := ⟨-q.x, -q.y, -q.z, -q.w⟩

/-- Componentwise quaternion sum (used by the slerp arithmetic). -/
def qadd (a b : Quat) : Quat := ⟨a.x + b.x, a.y + b.y, a.z + b.z, a.w + b.w⟩

/-- Componentwise quaternion scaling (used by the slerp arithmetic). -/
def qsmul (t : ℝ) (q : Quat) : Quat := ⟨t * q.x, t * q.y, t * q.z, t * q.w⟩

/-- Quaternion normalization (`Quaternion.normalize`): the zero quaternion
maps to the identity, otherwise divide by the length. -/
def qnormalize (q : Quat) : Quat :=
  if Real.sqrt (qnormSq q) = 0 then ⟨0, 0, 0, 1⟩
  else qsmul (1 / Real.sqrt (qnormSq q)) q

/-- Hamilton product (`Quaternion.multiply`), in three.js component form. -/
def qmul (a b : Quat) : Quat :=
  ⟨a.x * b.w + a.w * b.x + a.y * b.z - a.z * b.y,
   a.y * b.w + a.w * b.y + a.z * b.x - a.x * b.z,
   a.z * b.w + a.w * b.z + a.x * b.y - a.y * b.x,
   a.w * b.w - a.x * b.x - a.y * b.y - a.z * b.z⟩

/-- The three.js `Vector3.applyQuaternion`:
`t := 2 q⃗ × v`, result `v + w t + q⃗ × t`. -/
def applyQuaternion (q : Quat) (v : Vec3) : Vec3 :=
  let tx := 2 * (q.y * v.z - q.z * v.y)
  let ty := 2 * (q.z * v.x - q.x * v.z)
  let tz := 2 * (q.x * v.y - q.y * v.x)
  ⟨v.x + q.w * tx + (q.y * tz - q.z * ty),
   v.y + q.w * ty + (q.z * tx - q.x * tz),
   v.z + q.w * tz + (q.x * ty - q.y * tx)⟩

/-- JavaScript `Number.EPSILON` = 2⁻⁵². -/
def jsEpsilon : ℝ := 1 / 2 ^ 52

/-- JavaScript `Math.atan2`. -/
def atan2 (y x : ℝ) : ℝ :=
  if 0 < x then Real.arctan (y / x)
  else if x < 0 then
    (if 0 ≤ y then Real.arctan (y / x) + Real.pi else Real.arctan (y / x) - Real.pi)
  else
    (if 0 < y then Real.pi / 2 else if y < 0 then -(Real.pi / 2) else 0)

/-- Tail of three.js `Quaternion.slerp` after the sign convention has been
applied: `qa` is the receiver's value on entry, `q2` the (possibly
negated) argument, `ch` the non-negative cosine of the half angle. -/
def slerpBody (qa q2 : Quat) (ch t : ℝ) : Quat :=
  if 1 ≤ ch then qa
  else if 1 - ch * ch ≤ jsEpsilon then
    qnormalize (qadd (qsmul (1 - t) qa) (qsmul t q2))
  else
    let sh := Real.sqrt (1 - ch * ch)
    let ht := atan2 sh ch
    qadd (qsmul (Real.sin ((1 - t) * ht) / sh) qa)
         (qsmul (Real.sin (t * ht) / sh) q2)

/-- The three.js `Quaternion.slerp(qb, t)` called on `qa`: early returns
for `t = 0` and `t = 1`, then the shortest-arc sign flip when the dot
product is negative, then `slerpBody`. -/
def slerp (qa qb : Quat) (t : ℝ) : Quat :=
  if t = 0 then qa
  else if t = 1 then qb
  else
    if qdot qa qb < 0 then slerpBody qa (qneg qb) (-(qdot qa qb)) t
    else slerpBody qa qb (qdot qa qb) t

/-- A camera-relative pose sample / stabilized pose
(`{ position, quaternion }` in the source). -/
structure Pose where
  position : Vec3
  quaternion : Quat

/-- Position average of `finalizeStabilization`: `forEach add` into a zero
vector, then `divideScalar(length)` (which is `multiplyScalar(1/length)`). -/
def avgPos (l : List Vec3) : Vec3 :=
  vsmul (1 / (l.length : ℝ)) (l.foldl vadd vzero)

/-- The slerp accumulation loop of `finalizeStabilization`:
`for (i = 1; i < n; i++) avgQuat.slerp(buffer[i].quaternion, 1/(i+1))`. -/
def slerpAccum : Quat → List Quat → Nat → Quat
  | acc, [], _ => acc
  | acc, x :: xs, i => slerpAccum (slerp acc x (1 / ((i : ℝ) + 1))) xs (i + 1)

/-- Orientation average of `finalizeStabilization`: accumulator starts at
the first sample's quaternion; the empty case is unreachable (guarded by
the caller's empty-buffer check). -/
def avgQuat : List Quat → Quat
  | [] => ⟨0, 0, 0, 1⟩
  | q :: rest => slerpAccum q rest 1

/-- The pose computation of `finalizeStabilization` on a buffer: `none`
exactly on the empty buffer (the `No poses buffered!` rejection),
otherwise the averaged pose. -/
def finalizeStabilizationPose (l : List Pose) : Option Pose :=
  if l.length = 0 then none
  else some ⟨avgPos (l.map Pose.position), avgQuat (l.map Pose.quaternion)⟩

/-! ## World-origin locking (src/unnamed/part_001, `lockWorldOrigin`) -/

/-- `MAX_MARKER_DISTANCE` (src/unnamed/part_001 line 61). -/
def maxMarkerDistance : ℝ := 5

/-- Magnitude clamp as written in `lockWorldOrigin`:
`if (offsetPos.length() > c) offsetPos.setLength(c)`. -/
def clampLength (c : ℝ) (v : Vec3) : Vec3 :=
  if c < vlength v then setLength c v else v

/-- The code's order of operations: rotate the stabilized offset by the
viewer orientation, then clamp its magnitude. -/
def rotateThenClamp (q : Quat) (c : ℝ) (v : Vec3) : Vec3 :=
  clampLength c (applyQuaternion q v)

/-- Modelled from the spec: step 3 of the locking algorithm prescribes
clamping the magnitude of the offset vector BEFORE the rotation of step 2
("Clamp the offset vector's magnitude to a maximum plausible marker
distance (default 5 m) before step 2"); this definition follows those
words for comparison with the code's `rotateThenClamp`. -/
def clampThenRotate (q : Quat) (c : ℝ) (v : Vec3) : Vec3 :=
  applyQuaternion q (clampLength c v)

/-- The committed camera-to-marker offset of `lockWorldOrigin`
(lines 459–463). -/
def lockOffset (camQ : Quat) (stabPos : Vec3) : Vec3 :=
  rotateThenClamp camQ maxMarkerDistance stabPos

/-- The committed anchor position of `lockWorldOrigin` (line 464):
`markerWorldPos = cameraPosition + offsetPos`. -/
def lockPosition (camPos : Vec3) (camQ : Quat) (stabPos : Vec3) : Vec3 :=
  vadd camPos (lockOffset camQ stabPos)

/-- Horizontal projection used by the gravity branch (`forward.y = 0`). -/
def horizProj (v : Vec3) : Vec3 := ⟨v.x, 0, v.z⟩

/-- The composed forward axis of the gravity branch (line 469):
`(0, 0, FLIP_MARKER_Z ? 1 : -1).applyQuaternion(markerWorldRot)`. -/
def gravityForwardRaw (flip : Bool) (r : Quat) : Vec3 :=
  applyQuaternion r ⟨0, 0, if flip then 1 else -1⟩

/-- The forward direction actually used for the yaw (lines 470–475):
horizontal projection, then either the fixed `(0, 0, -1)` fallback when
the squared length is below `1e-6`, or normalization. -/
def gravityForward (flip : Bool) (r : Quat) : Vec3 :=
  let h := horizProj (gravityForwardRaw flip r)
  if lensq h < 1e-6 then ⟨0, 0, -1⟩ else vnormalize h

/-- The three.js quaternion of `new THREE.Euler(0, yaw, 0)` with YXZ
order: a pure rotation about the vertical axis. -/
def yawQuat (θ : ℝ) : Quat := ⟨0, Real.sin (θ / 2), 0, Real.cos (θ / 2)⟩

/-- The committed anchor orientation of `lockWorldOrigin` (lines 465–478):
compose viewer and stabilized orientations; in gravity mode replace the
result by the yaw-only quaternion `atan2(forward.x, forward.z)` about the
vertical axis. -/
def lockRotation (useGravity flip : Bool) (camQ stabQ : Quat) : Quat :=
  let r := qmul camQ stabQ
  if useGravity then
    let f := gravityForward flip r
    yawQuat (atan2 f.x f.z)
  else r

/-- The final `{position, quaternion}` assigned to the content root. -/
structure AnchorTransform where
  position : Vec3
  quaternion : Quat

/-- The content root's transform and visibility (`sceneManager.worldRoot`). -/
structure WorldRoot where
  position : Vec3
  quaternion : Quat
  visible : Bool

/-- `lockWorldOrigin` as a fallible computation of the anchor transform:
with `stabilizedPose === null` the very first use
(`stabilizedPose.position.clone()`) throws a TypeError — before any write
to the content root — surfaced through the global `window.onerror`
reporter; otherwise the committed transform is produced. -/
def lockWorldOrigin (useGravity flip : Bool) (viewerPos : Vec3) (viewerQ : Quat)
    (stab : Option Pose) : Except String AnchorTransform :=
  match stab with
  | none => Except.error ("TypeError: cannot read position of null stabilizedPose")
  | some sp =>
      Except.ok { position := lockPosition viewerPos viewerQ sp.position,
                  quaternion := lockRotation useGravity flip viewerQ sp.quaternion }

/-- Effect of one `lockWorldOrigin` call on the content root: on the error
path the root keeps its previous transform and visibility; on success the
computed transform is copied in and the root is made visible. -/
def applyLockToRoot (root : WorldRoot) (useGravity flip : Bool) (vp : Vec3) (vq : Quat)
    (stab : Option Pose) : WorldRoot :=
  match lockWorldOrigin useGravity flip vp vq stab with
  | Except.error _ => root
  | Except.ok t => { position := t.position, quaternion := t.quaternion, visible := true }

end

/-! ## Helper lemmas: state machine -/

lemma noStale_step {α : Type} (p : α) (s : AppState α) (e : AppEvent α)
    (hp : ∀ x, e = AppEvent.frame x → x ≠ p) (h : NoStale p s) :
    NoStale p (step s e) := by
  obtain ⟨h1, h2⟩ := h
  unfold NoStale
  cases e with
  | targetFound =>
      by_cases hc : s.phase = Phase.mindarReady
      · refine ⟨?_, ?_⟩
        · intro _
          simp [step, hc, beginPoseStabilization]
        · simpa [step, hc, beginPoseStabilization] using h2
      · exact ⟨by simpa [step, hc] using h1, by simpa [step, hc] using h2⟩
  | targetLost =>
      by_cases hc : s.phase = Phase.mindarTracking ∨ s.phase = Phase.poseStabilizing
      · refine ⟨?_, ?_⟩
        · intro ht
          simp [step, hc, cancelPoseStabilization] at ht
        · simpa [step, hc, cancelPoseStabilization] using h2
      · exact ⟨by simpa [step, hc] using h1, by simpa [step, hc] using h2⟩
  | frame x =>
      by_cases hc : s.phase = Phase.poseStabilizing
      · refine ⟨?_, ?_⟩
        · intro ht hmem
          have hx : x ≠ p := hp x rfl
          have hb : p ∉ s.buffer := h1 (by simpa [step, hc] using ht)
          rcases (by simpa [step, hc] using hmem : p ∈ s.buffer ∨ p = x) with hm | hm
          · exact hb hm
          · exact hx hm.symm
        · simpa [step, hc] using h2
      · exact ⟨by simpa [step, hc] using h1, by simpa [step, hc] using h2⟩
  | timerComplete =>
      by_cases hc : s.timerActive = true
      · by_cases hb : s.buffer.length = 0
        · refine ⟨?_, ?_⟩
          · intro ht
            simp [step, hc, finalizeStabilization, hb, cancelPoseStabilization] at ht
          · simpa [step, hc, finalizeStabilization, hb, cancelPoseStabilization] using h2
        · have hpb : p ∉ s.buffer := h1 hc
          refine ⟨?_, ?_⟩
          · intro ht
            simp [step, hc, finalizeStabilization, hb] at ht
          · intro l hl
            have hl' : l ∈ s.finalized ++ [s.buffer] := by
              simpa [step, hc, finalizeStabilization, hb] using hl
            rcases List.mem_append.mp hl' with hm | hm
            · exact h2 l hm
            · rw [List.mem_singleton.mp hm]
              exact hpb
      · exact ⟨by simp [step, hc], by simpa [step, hc] using h2⟩

lemma noStale_run {α : Type} (p : α) :
    ∀ (es : List (AppEvent α)) (s : AppState α), NoStale p s →
      (∀ x ∈ frameSamples es, x ≠ p) → NoStale p (run s es) := by
  intro es
  induction es with
  | nil =>
      intro s h _
      exact h
  | cons e rest ih =>
      intro s h hes
      have he : ∀ x, e = AppEvent.frame x → x ≠ p := by
        intro x hx
        refine hes x ?_
        subst hx
        simp [frameSamples, List.filterMap_cons]
      have hrest : ∀ x ∈ frameSamples rest, x ≠ p := by
        intro x hx
        refine hes x ?_
        cases e <;> simp only [frameSamples, List.filterMap_cons] at hx ⊢ <;> simp_all
      have := ih (step s e) (noStale_step p s e he h) hrest
      simpa [run] using this

/-! ## Helper lemmas: session-start guard -/

lemma xrInv_step (s : XrStart) (e : XrEvent) (h : XrInv s) : XrInv (xrStep s e) := by
  obtain ⟨h1, h2⟩ := h
  unfold XrInv
  cases e with
  | req xrOk =>
      by_cases hs : s.starting = true
      · have hid : xrStep s (XrEvent.req xrOk) = s := by simp [xrStep, hs]
        rw [hid]
        exact ⟨h1, h2⟩
      · have hz : s.pending = 0 := by
          by_contra hnz
          have h1' : s.pending = 1 := by omega
          exact hs (h2 h1')
        cases xrOk
        · exact ⟨by simp [xrStep, hs, hz], by simp [xrStep, hs, hz]⟩
        · exact ⟨by simp [xrStep, hs, hz], by simp [xrStep, hs, hz]⟩
  | resolveOk =>
      refine ⟨?_, ?_⟩
      · simp only [xrStep]
        omega
      · intro hp
        exact absurd h1 (by simp only [xrStep] at hp; omega)
  | resolveFail =>
      refine ⟨?_, ?_⟩
      · simp only [xrStep]
        omega
      · intro hp
        exact absurd h1 (by simp only [xrStep] at hp; omega)

lemma xrInv_run : ∀ (es : List XrEvent) (s : XrStart), XrInv s → XrInv (es.foldl xrStep s) := by
  intro es
  induction es with
  | nil =>
      intro s h
      exact h
  | cons e rest ih =>
      intro s h
      simpa using ih (xrStep s e) (xrInv_step s e h)

/-! ## Claim theorems -/

/-- C1 counterexample: a targetLost event in POSE_STABILIZING with one
buffered sample stops the timer and returns to MARKER_READY, but the
buffered sample is NOT discarded — the buffer is left untouched by
`cancelPoseStabilization`, refuting the claim that every sample
accumulated during the attempt is discarded at the abort. -/
theorem C1_buffer_not_discarded_counterexample :
    (step c1State AppEvent.targetLost).phase = Phase.mindarReady
    ∧ (step c1State AppEvent.targetLost).timerActive = false
    ∧ (step c1State AppEvent.targetLost).buffer = [0]
    ∧ (step c1State AppEvent.targetLost).buffer ≠ [] := by
  refine ⟨rfl, rfl, rfl, by decide⟩

/-- C1 (amended): a targetLost event during POSE_STABILIZING immediately
stops the collection timer and moves the phase to MARKER_READY, but the
PoseBuffer is retained (not discarded) until the next attempt's
`beginPoseStabilization` resets it; nevertheless, for any continuation of
the run in which the aborted attempt's sample `p` is never pushed again,
no buffer ever handed to the stabilized-average computation contains
`p`. -/
theorem C1_target_lost_abort (s : AppState ℤ) (p : ℤ) (es : List (AppEvent ℤ))
    (hphase : s.phase = Phase.poseStabilizing)
    (hfin : ∀ l ∈ s.finalized, p ∉ l)
    (hes : ∀ x ∈ frameSamples es, x ≠ p) :
    (step s AppEvent.targetLost).timerActive = false
    ∧ (step s AppEvent.targetLost).phase = Phase.mindarReady
    ∧ (step s AppEvent.targetLost).buffer = s.buffer
    ∧ ∀ l ∈ (run (step s AppEvent.targetLost) es).finalized, p ∉ l := by
  have hcond : s.phase = Phase.mindarTracking ∨ s.phase = Phase.poseStabilizing :=
    Or.inr hphase
  have hstep : step s AppEvent.targetLost
      = { cancelPoseStabilization s with phase := Phase.mindarReady } := by
    simp [step, hcond]
  have hinv : NoStale p (step s AppEvent.targetLost) := by
    rw [hstep]
    unfold NoStale
    constructor
    · intro ht
      simp [cancelPoseStabilization] at ht
    · simpa [cancelPoseStabilization] using hfin
  refine ⟨by rw [hstep]; rfl, by rw [hstep], by rw [hstep]; rfl, ?_⟩

  exact (noStale_run p es _ hinv hes).2

/-- C1 witness: the abort theorem applied at a concrete stabilizing state
holding sample 5, followed by a fresh successful attempt pushing a
different sample. -/
theorem C1_target_lost_abort_witness :
    (step c1WitnessState AppEvent.targetLost).timerActive = false
    ∧ (step c1WitnessState AppEvent.targetLost).phase = Phase.mindarReady
    ∧ (step c1WitnessState AppEvent.targetLost).buffer = c1WitnessState.buffer
    ∧ ∀ l ∈ (run (step c1WitnessState AppEvent.targetLost) c1WitnessEvents).finalized,
        (5 : ℤ) ∉ l :=
  C1_target_lost_abort c1WitnessState 5 c1WitnessEvents rfl (by simp [c1WitnessState])
    (by decide)

/-- C3: when the stabilization timer completes with an empty PoseBuffer the
code reports the explicit `No poses buffered!` error, produces no
stabilized pose and does not transition to WEBXR_STARTING — but contrary
to the claim (and the spec's §7 retry design, which the restored scanning
UI in `cancelPoseStabilization` also indicates), `currentState` is left at
POSE_STABILIZING rather than returning to MINDAR_READY: the empty-buffer
branch of `finalizeStabilization` never resets `currentState`. -/
theorem C3_empty_buffer_stuck :
    (step c3State AppEvent.timerComplete).errors = [("No poses buffered!")]
    ∧ (step c3State AppEvent.timerComplete).stabilized = none
    ∧ (step c3State AppEvent.timerComplete).phase ≠ Phase.webxrStarting
    ∧ (step c3State AppEvent.timerComplete).phase = Phase.poseStabilizing
    ∧ (step c3State AppEvent.timerComplete).phase ≠ Phase.mindarReady := by
  refine ⟨rfl, rfl, by decide, rfl, by decide⟩

/-- C6: the session-start guard of `startWebXRSession` — a request arriving
while `webxrSessionStarting` is set leaves the state unchanged (no second
negotiation is issued); a rejected negotiation clears the flag so a later
user-gesture retry can proceed; and along every event sequence from the
initial state at most one negotiation is ever in flight. -/
theorem C6_session_start_guard :
    (∀ (n : Nat) (b : Bool),
        xrStep { starting := true, pending := n } (XrEvent.req b)
          = { starting := true, pending := n })
    ∧ (∀ s : XrStart, (xrStep s XrEvent.resolveFail).starting = false)
    ∧ (∀ es : List XrEvent, (es.foldl xrStep xrInit).pending ≤ 1) := by
  refine ⟨fun n b => by simp [xrStep], fun s => rfl, fun es => ?_⟩
  exact (xrInv_run es xrInit (by simp [XrInv, xrInit])).1

/-! ## Helper lemmas: geometry -/

lemma Vec3.ext {a b : Vec3} (hx : a.x = b.x) (hy : a.y = b.y) (hz : a.z = b.z) : a = b := by
  cases a
  cases b
  simp_all

lemma vsmul_vsmul (a b : ℝ) (v : Vec3) : vsmul a (vsmul b v) = vsmul (a * b) v := by
  apply Vec3.ext <;> simp only [vsmul] <;> ring

lemma vsub_vadd_cancel (a w : Vec3) : vsub (vadd a w) a = w := by
  apply Vec3.ext <;> simp only [vsub, vadd] <;> ring

lemma lensq_vsmul (t : ℝ) (v : Vec3) : lensq (vsmul t v) = t ^ 2 * lensq v := by
  simp only [lensq, vsmul]
  ring

lemma applyQuaternion_vsmul (q : Quat) (t : ℝ) (v : Vec3) :
    applyQuaternion q (vsmul t v) = vsmul t (applyQuaternion q v) := by
  apply Vec3.ext <;> simp only [applyQuaternion, vsmul] <;> ring

lemma lensq_applyQuaternion (q : Quat) (v : Vec3) (hq : qnormSq q = 1) :
    lensq (applyQuaternion q v) = lensq v := by
  simp only [qnormSq] at hq
  simp only [lensq, applyQuaternion]
  linear_combination (4 * (q.x * q.x + q.y * q.y + q.z * q.z) * (v.x * v.x + v.y * v.y + v.z * v.z)
    - 4 * (q.x * v.x + q.y * v.y + q.z * v.z) ^ 2) * hq

lemma vlength_eq (v : Vec3) (c : ℝ) (hc : 0 ≤ c) (h : lensq v = c ^ 2) : vlength v = c := by
  rw [vlength, h, Real.sqrt_sq hc]

lemma vlength_le (v : Vec3) (c : ℝ) (hc : 0 ≤ c) (h : lensq v ≤ c ^ 2) : vlength v ≤ c := by
  rw [vlength]
  calc Real.sqrt (lensq v) ≤ Real.sqrt (c ^ 2) := Real.sqrt_le_sqrt h
    _ = c := Real.sqrt_sq hc

lemma qdot_self (q : Quat) : qdot q q = qnormSq q := rfl

lemma qdot_qneg_right (a b : Quat) : qdot a (qneg b) = -(qdot a b) := by
  simp only [qdot, qneg]
  ring

lemma slerp_self (q : Quat) (t : ℝ) (hq : qnormSq q = 1) : slerp q q t = q := by
  by_cases h0 : t = 0
  · simp [slerp, h0]
  by_cases h1 : t = 1
  · simp [slerp, h0, h1]
  have hd : qdot q q = 1 := by rw [qdot_self, hq]
  simp only [slerp, if_neg h0, if_neg h1, hd]
  norm_num [slerpBody]

lemma slerpAccum_self (q : Quat) (hq : qnormSq q = 1) :
    ∀ (k i : Nat), slerpAccum q (List.replicate k q) i = q := by
  intro k
  induction k with
  | zero =>
      intro i
      simp [slerpAccum]
  | succ m ih =>
      intro i
      rw [List.replicate_succ]
      show slerpAccum (slerp q q (1 / ((i : ℝ) + 1))) (List.replicate m q) (i + 1) = q
      rw [slerp_self q _ hq]
      exact ih (i + 1)

lemma foldl_vadd_replicate (p : Vec3) :
    ∀ (n : Nat) (a : Vec3),
      List.foldl vadd a (List.replicate n p) = vadd a (vsmul (n : ℝ) p) := by
  intro n
  induction n with
  | zero =>
      intro a
      apply Vec3.ext <;> simp [vadd, vsmul]
  | succ m ih =>
      intro a
      rw [List.replicate_succ, List.foldl_cons, ih (vadd a p)]
      apply Vec3.ext <;> simp only [vadd, vsmul] <;> push_cast <;> ring

lemma avgPos_replicate (n : Nat) (p : Vec3) (hn : 1 ≤ n) :
    avgPos (List.replicate n p) = p := by
  have hne : ((n : ℝ)) ≠ 0 := by
    have : (0 : ℝ) < (n : ℝ) := by exact_mod_cast Nat.pos_of_ne_zero (by omega)
    linarith
  unfold avgPos
  rw [foldl_vadd_replicate, List.length_replicate]
  apply Vec3.ext <;> simp only [vadd, vsmul, vzero] <;> field_simp

lemma yawQuat_forward_y (θ : ℝ) : (applyQuaternion (yawQuat θ) (Vec3.mk 0 0 (-1))).y = 0 := by
  simp only [applyQuaternion, yawQuat]
  ring

lemma qnormSq_yawQuat (θ : ℝ) : qnormSq (yawQuat θ) = 1 := by
  simp only [qnormSq, yawQuat]
  linear_combination Real.sin_sq_add_cos_sq (θ / 2)

/-- C2: the rotated stabilized offset is clamped to at most 5 m before the
anchor position is committed.  For any unit viewer orientation: an offset
of magnitude 50 m commits the anchor at exactly 5 m from the viewer, along
the world-space direction of the original offset (scaled by 5/50 = 1/10);
an offset of magnitude at most 5 m is committed unchanged. -/
theorem C2_distance_clamp (cam : Vec3) (q : Quat) (v : Vec3) (hq : qnormSq q = 1) :
    (lensq v = 2500 →
        lockPosition cam q v = vadd cam (vsmul (1 / 10) (applyQuaternion q v))
        ∧ vlength (vsub (lockPosition cam q v) cam) = 5)
    ∧ (lensq v ≤ 25 → lockPosition cam q v = vadd cam (applyQuaternion q v)) := by
  have hrot : lensq (applyQuaternion q v) = lensq v := lensq_applyQuaternion q v hq
  constructor
  · intro h50
    have hlen : vlength (applyQuaternion q v) = 50 :=
      vlength_eq _ _ (by norm_num) (by rw [hrot, h50]; norm_num)
    have hcond : maxMarkerDistance < vlength (applyQuaternion q v) := by
      rw [hlen]
      norm_num [maxMarkerDistance]
    have hoff : lockOffset q v = vsmul (1 / 10) (applyQuaternion q v) := by
      unfold lockOffset rotateThenClamp clampLength
      rw [if_pos hcond]
      unfold setLength vnormalize
      rw [hlen, if_neg (by norm_num : (50 : ℝ) ≠ 0), vsmul_vsmul]
      norm_num [maxMarkerDistance]
    constructor
    · unfold lockPosition
      rw [hoff]
    · unfold lockPosition
      rw [vsub_vadd_cancel, hoff]
      apply vlength_eq _ _ (by norm_num)
      rw [lensq_vsmul, hrot, h50]
      norm_num
  · intro h25
    have hle : vlength (applyQuaternion q v) ≤ 5 :=
      vlength_le _ _ (by norm_num) (by rw [hrot]; linarith [h25])
    have hcond : ¬ (maxMarkerDistance < vlength (applyQuaternion q v)) := by
      simp only [maxMarkerDistance]
      exact not_lt.mpr hle
    unfold lockPosition lockOffset rotateThenClamp clampLength
    rw [if_neg hcond]

/-- C2 witness: viewer at the origin with identity orientation, stabilized
offset (50, 0, 0): both clamp behaviors evaluated concretely. -/
theorem C2_distance_clamp_witness :
    lensq (Vec3.mk 50 0 0) = 2500
    ∧ lockPosition (Vec3.mk 0 0 0) (Quat.mk 0 0 0 1) (Vec3.mk 50 0 0)
        = vadd (Vec3.mk 0 0 0)
            (vsmul (1 / 10) (applyQuaternion (Quat.mk 0 0 0 1) (Vec3.mk 50 0 0)))
    ∧ vlength (vsub (lockPosition (Vec3.mk 0 0 0) (Quat.mk 0 0 0 1) (Vec3.mk 50 0 0))
        (Vec3.mk 0 0 0)) = 5 :=
  ⟨by norm_num [lensq],
   ((C2_distance_clamp (Vec3.mk 0 0 0) (Quat.mk 0 0 0 1) (Vec3.mk 50 0 0)
      (by norm_num [qnormSq])).1 (by norm_num [lensq])).1,
   ((C2_distance_clamp (Vec3.mk 0 0 0) (Quat.mk 0 0 0 1) (Vec3.mk 50 0 0)
      (by norm_num [qnormSq])).1 (by norm_num [lensq])).2⟩

/-- C4: invoking `lockWorldOrigin` with `stabilizedPose = null` fails with
a reported error (the TypeError thrown before any commit, surfaced by the
global error reporter) and commits nothing: the content root's transform
and visibility are unchanged, and no default pose is substituted. -/
theorem C4_null_pose_rejected (root : WorldRoot) (g f : Bool) (vp : Vec3) (vq : Quat) :
    lockWorldOrigin g f vp vq none
      = Except.error ("TypeError: cannot read position of null stabilizedPose")
    ∧ applyLockToRoot root g f vp vq none = root :=
  ⟨rfl, rfl⟩

/-- C5: in gravity-alignment mode the committed anchor orientation is a
pure yaw rotation — the forward vector (0,0,-1) rotated by the committed
orientation has zero vertical component — and the committed anchor
position is identical to the full mode's position. -/
theorem C5_gravity_yaw_only (vp : Vec3) (vq sq : Quat) (p : Vec3) (flip : Bool) :
    ∃ tg tf : AnchorTransform,
      lockWorldOrigin true flip vp vq (some (Pose.mk p sq)) = Except.ok tg
      ∧ lockWorldOrigin false flip vp vq (some (Pose.mk p sq)) = Except.ok tf
      ∧ tg.position = tf.position
      ∧ (applyQuaternion tg.quaternion (Vec3.mk 0 0 (-1))).y = 0 := by
  refine ⟨_, _, rfl, rfl, rfl, ?_⟩
  show (applyQuaternion (lockRotation true flip vq sq) (Vec3.mk 0 0 (-1))).y = 0
  have hrot : lockRotation true flip vq sq
      = yawQuat (atan2 (gravityForward flip (qmul vq sq)).x
          (gravityForward flip (qmul vq sq)).z) := rfl
  rw [hrot]
  exact yawQuat_forward_y _

/-- C7: averaging a buffer of N ≥ 1 identical poses (unit orientation)
yields exactly that pose: the position mean and the incremental slerp both
reproduce the common sample without drift. -/
theorem C7_average_idempotent (n : Nat) (p : Vec3) (q : Quat)
    (hn : 1 ≤ n) (hq : qnormSq q = 1) :
    finalizeStabilizationPose (List.replicate n (Pose.mk p q)) = some (Pose.mk p q) := by
  obtain ⟨m, rfl⟩ : ∃ m, n = m + 1 := ⟨n - 1, by omega⟩
  unfold finalizeStabilizationPose
  rw [if_neg (by simp)]
  have hmap1 : (List.replicate (m + 1) (Pose.mk p q)).map Pose.position
      = List.replicate (m + 1) p := by simp
  have hmap2 : (List.replicate (m + 1) (Pose.mk p q)).map Pose.quaternion
      = List.replicate (m + 1) q := by simp
  rw [hmap1, hmap2, avgPos_replicate (m + 1) p (by omega)]
  have hquat : avgQuat (List.replicate (m + 1) q) = q := by
    rw [List.replicate_succ]
    show slerpAccum q (List.replicate m q) 1 = q
    exact slerpAccum_self q hq m 1
  rw [hquat]

/-- C7 witness: a buffer of three identical poses averages to the common
pose. -/
theorem C7_average_idempotent_witness :
    finalizeStabilizationPose
        (List.replicate 3 (Pose.mk (Vec3.mk 1 2 3) (Quat.mk 0 0 0 1)))
      = some (Pose.mk (Vec3.mk 1 2 3) (Quat.mk 0 0 0 1)) :=
  C7_average_idempotent 3 (Vec3.mk 1 2 3) (Quat.mk 0 0 0 1) (by norm_num)
    (by norm_num [qnormSq])

/-- C8: shortest-arc convention — for two quaternions with negative dot
product, the computed two-sample average equals (here: literally, as a
quaternion) the average obtained after negating the second input, so the
average never rotates the long way around. -/
theorem C8_shortest_arc (q1 q2 : Quat) (hdot : qdot q1 q2 < 0) :
    avgQuat [q1, q2] = avgQuat [q1, qneg q2] := by
  have key : ∀ t : ℝ, t ≠ 0 → t ≠ 1 → slerp q1 q2 t = slerp q1 (qneg q2) t := by
    intro t h0 h1
    unfold slerp
    simp only [if_neg h0, if_neg h1]
    rw [if_pos hdot, qdot_qneg_right,
        if_neg (show ¬ (-(qdot q1 q2) < 0) by linarith)]
  show slerpAccum q1 [q2] 1 = slerpAccum q1 [qneg q2] 1
  show slerp q1 q2 (1 / ((1 : Nat) + 1 : ℝ)) = slerp q1 (qneg q2) (1 / ((1 : Nat) + 1 : ℝ))
  exact key _ (by norm_num) (by norm_num)

/-- C8 witness: the identity quaternion against its negation (dot product
-1). -/
theorem C8_shortest_arc_witness :
    avgQuat [Quat.mk 0 0 0 1, Quat.mk 0 0 0 (-1)]
      = avgQuat [Quat.mk 0 0 0 1, qneg (Quat.mk 0 0 0 (-1))] :=
  C8_shortest_arc (Quat.mk 0 0 0 1) (Quat.mk 0 0 0 (-1)) (by norm_num [qdot])

/-- C9: refinement — for a unit viewer orientation and positive ceiling,
the code's order (rotate the offset, then clamp) commits the same vector
as the spec's prescribed order (clamp, then rotate), because rotation by a
unit quaternion preserves vector length and commutes with scaling. -/
theorem C9_clamp_rotate_commute (q : Quat) (v : Vec3) (c : ℝ)
    (hq : qnormSq q = 1) (hc : 0 < c) :
    rotateThenClamp q c v = clampThenRotate q c v := by
  have hlen : vlength (applyQuaternion q v) = vlength v := by
    unfold vlength
    rw [lensq_applyQuaternion q v hq]
  unfold rotateThenClamp clampThenRotate clampLength
  by_cases h : c < vlength v
  · rw [if_pos (by rw [hlen]; exact h), if_pos h]
    unfold setLength vnormalize
    have hv0 : vlength v ≠ 0 := by
      intro h0
      rw [h0] at h
      linarith
    rw [hlen, if_neg hv0, applyQuaternion_vsmul, applyQuaternion_vsmul]
  · rw [if_neg (by rw [hlen]; exact h), if_neg h]

/-- C9 witness: identity rotation, offset (3,4,0) of length 5, ceiling 1. -/
theorem C9_clamp_rotate_commute_witness :
    rotateThenClamp (Quat.mk 0 0 0 1) 1 (Vec3.mk 3 4 0)
      = clampThenRotate (Quat.mk 0 0 0 1) 1 (Vec3.mk 3 4 0) :=
  C9_clamp_rotate_commute (Quat.mk 0 0 0 1) (Vec3.mk 3 4 0) 1
    (by norm_num [qnormSq]) (by norm_num)

/-- C10: gravity alignment is total — the committed gravity-mode
orientation is always a well-defined unit quaternion, and whenever the
horizontal projection of the composed forward vector has squared length
below 1e-6, the fixed fallback direction (0,0,-1) is used instead of
normalizing a near-zero vector. -/
theorem C10_gravity_degenerate_total (vq sq : Quat) (flip : Bool) :
    qnormSq (lockRotation true flip vq sq) = 1
    ∧ (lensq (horizProj (gravityForwardRaw flip (qmul vq sq))) < 1e-6 →
        gravityForward flip (qmul vq sq) = Vec3.mk 0 0 (-1)) := by
  constructor
  · have hrot : lockRotation true flip vq sq
        = yawQuat (atan2 (gravityForward flip (qmul vq sq)).x
            (gravityForward flip (qmul vq sq)).z) := rfl
    rw [hrot]
    exact qnormSq_yawQuat _
  · intro h
    simp only [gravityForward]
    rw [if_pos h]

/-- C10 witness: a stabilized orientation that turns the marker's forward
axis straight down (horizontal projection exactly zero), with identity
viewer orientation. -/
theorem C10_gravity_degenerate_total_witness :
    lensq (horizProj (gravityForwardRaw true
        (qmul (Quat.mk 0 0 0 1) (Quat.mk (1 / 2) (1 / 2) (-(1 / 2)) (1 / 2))))) < 1e-6
    ∧ gravityForward true
        (qmul (Quat.mk 0 0 0 1) (Quat.mk (1 / 2) (1 / 2) (-(1 / 2)) (1 / 2)))
        = Vec3.mk 0 0 (-1)
    ∧ qnormSq (lockRotation true true (Quat.mk 0 0 0 1)
        (Quat.mk (1 / 2) (1 / 2) (-(1 / 2)) (1 / 2))) = 1 :=
  ⟨by norm_num [lensq, horizProj, gravityForwardRaw, applyQuaternion, qmul],
   (C10_gravity_degenerate_total (Quat.mk 0 0 0 1)
      (Quat.mk (1 / 2) (1 / 2) (-(1 / 2)) (1 / 2)) true).2
     (by norm_num [lensq, horizProj, gravityForwardRaw, applyQuaternion, qmul]),
   (C10_gravity_degenerate_total (Quat.mk 0 0 0 1)
      (Quat.mk (1 / 2) (1 / 2) (-(1 / 2)) (1 / 2)) true).1⟩

end WebXRHit
